import Mathlib

/-!
Shallow embedding of the authentication and authorization core of the
gym-management backend (gym-dev): password hashing, the JWT token codec
wrappers, the auth service (register / login / refreshAccessToken /
getProfile), the user service, and the request middlewares
(authenticate, validateGymAccess).

Machine integers do not occur; all timestamps and counters are `Nat`.
Persistent state (the user table) is passed explicitly as a `List User`.
Fallible operations return `Except AppError _`.
-/

deriving instance DecidableEq for Except

namespace GymDev

/-! ## Roles and errors -/

/-- The closed role enumeration from the Prisma schema (`Role`). -/
inductive Role where
  | ADMIN
  | INSTRUCTOR
  | MEMBER
deriving DecidableEq, Repr

/-- `AppError` from `src/shared/errors/app-error.ts`: a message plus the
HTTP status code carried to the central error handler. -/
structure AppError where
  message : String
  statusCode : Nat
deriving DecidableEq, Repr

/-! ## JavaScript string truthiness

The middlewares use `a || b` and `if (!x)` on possibly-absent strings.
An absent value (`undefined`) and the empty string are both falsy. -/

/-- JS truthiness of a possibly-absent string. -/
def jsTruthy : Option String → Bool
  | none => false
  | some s => !(s == "")

/-- JS `a || b` on possibly-absent strings. -/
def jsOr (a b : Option String) : Option String :=
  if jsTruthy a then a else b

/-! ## Password hasher (`src/shared/utils/password.util.ts`)

Modelled from the spec: the hashing itself is done by the external
`bcryptjs` library, which is not part of this repository. Per the spec's
Password Hasher contract, `hash` embeds a fresh random salt in a
self-contained digest and `verify` recomputes under the digest's embedded
parameters. We model the digest as an ideal salted one-way function:
injective in (plaintext, salt), with verification succeeding exactly when
the plaintext matches. The salt drawn by each call is made an explicit
argument. -/

/-- A bcrypt digest: embedded salt plus the derived key, idealised. -/
structure Digest where
  salt : Nat
  derived : String
deriving DecidableEq, Repr

/-- `hashPassword`: bcrypt.hash with `SALT_ROUNDS = 10`; the fresh random
salt of the call is the explicit `salt` argument. -/
def hashPassword (password : String) (salt : Nat) : Digest :=
  ⟨salt, password⟩

/-- `comparePassword`: bcrypt.compare of a plaintext against a digest. -/
def comparePassword (password : String) (hash : Digest) : Bool :=
  password == hash.derived

/-! ## Token codec (`src/shared/utils/jwt.util.ts`)

The wrappers in `jwt.util.ts` delegate signing and verification to the
external `jsonwebtoken` library. Modelled from the spec: a signed token
carries its claims, issuer, audience, issued-at and expiry, plus a
signature; the signature is modelled as an ideal MAC, i.e. it records
exactly the secret and the signed content, and verification recomputes
and compares. A structurally malformed wire value is the `malformed`
constructor. `jsonwebtoken` checks, in order: structure, signature,
expiry, audience, issuer. -/

/-- `JwtPayload` (access-token claims): userId, gymId, role. -/
structure JwtPayload where
  userId : String
  gymId : String
  role : Role
deriving DecidableEq, Repr

/-- `RefreshTokenPayload`: userId only. -/
structure RefreshTokenPayload where
  userId : String
deriving DecidableEq, Repr

/-- A well-formed signed JWT over claims `α`. The `sig` field is the
ideal MAC: the secret together with all signed content. -/
structure SignedJwt (α : Type) where
  payload : α
  iss : String
  aud : String
  iat : Nat
  exp : Nat
  sig : Nat × α × String × String × Nat × Nat
deriving DecidableEq, Repr

/-- A wire token: either structurally malformed or a signed JWT. -/
inductive Jwt (α : Type) where
  | malformed
  | token (t : SignedJwt α)
deriving DecidableEq, Repr

/-- A verified, decoded token: claims plus iat/exp (`DecodedToken`). -/
structure Decoded (α : Type) where
  payload : α
  iat : Nat
  exp : Nat
deriving DecidableEq, Repr

/-- The two `jsonwebtoken` failure classes the wrappers distinguish. -/
inductive JwtError where
  | TokenExpiredError
  | JsonWebTokenError
deriving DecidableEq, Repr

/-- `jwt.sign(payload, secret, {expiresIn, issuer, audience})` at clock
time `now`. -/
def jwtSign {α : Type} (secret : Nat) (payload : α) (issuer audience : String)
    (now expiresIn : Nat) : SignedJwt α :=
  { payload := payload
    iss := issuer
    aud := audience
    iat := now
    exp := now + expiresIn
    sig := (secret, payload, issuer, audience, now, now + expiresIn) }

/-- `jwt.verify(token, secret, {issuer, audience})` at clock time `now`.
Check order follows `jsonwebtoken`: structure, signature, expiry,
audience, issuer. -/
def jwtVerify {α : Type} [DecidableEq α] (secret : Nat) (issuer audience : String)
    (now : Nat) : Jwt α → Except JwtError (Decoded α)
  | .malformed => .error .JsonWebTokenError
  | .token t =>
    if t.sig ≠ (secret, t.payload, t.iss, t.aud, t.iat, t.exp) then
      .error .JsonWebTokenError
    else if t.exp ≤ now then
      .error .TokenExpiredError
    else if t.aud ≠ audience then
      .error .JsonWebTokenError
    else if t.iss ≠ issuer then
      .error .JsonWebTokenError
    else
      .ok ⟨t.payload, t.iat, t.exp⟩

/-- `JWT_CONFIG`: the two secrets and the two expiry windows, loaded from
the environment at startup. -/
structure JwtConfig where
  accessSecret : Nat
  refreshSecret : Nat
  accessExpiresIn : Nat
  refreshExpiresIn : Nat
deriving DecidableEq, Repr

/-- The issuer constant bound at signing and re-checked at verification. -/
def jwtIssuer : String := "gym-saas-api"

/-- The audience constant bound at signing and re-checked at verification. -/
def jwtAudience : String := "gym-saas-client"

/-- Error kinds thrown by the `jwt.util.ts` wrappers. -/
inductive TokenError where
  | AccessTokenExpired
  | InvalidAccessToken
  | RefreshTokenExpired
  | InvalidRefreshToken
deriving DecidableEq, Repr

/-- `generateAccessToken`: sign the full payload with the access secret,
short expiry, fixed issuer/audience. -/
def generateAccessToken (cfg : JwtConfig) (payload : JwtPayload) (now : Nat) :
    SignedJwt JwtPayload :=
  jwtSign cfg.accessSecret payload jwtIssuer jwtAudience now cfg.accessExpiresIn

/-- `generateRefreshToken`: sign the minimal payload with the refresh
secret, long expiry, fixed issuer/audience. -/
def generateRefreshToken (cfg : JwtConfig) (payload : RefreshTokenPayload) (now : Nat) :
    SignedJwt RefreshTokenPayload :=
  jwtSign cfg.refreshSecret payload jwtIssuer jwtAudience now cfg.refreshExpiresIn

/-- `verifyAccessToken`: verify against the access secret and map the two
`jsonwebtoken` failure classes to the wrapper's own errors. -/
def verifyAccessToken (cfg : JwtConfig) (now : Nat) (tok : Jwt JwtPayload) :
    Except TokenError (Decoded JwtPayload) :=
  match jwtVerify cfg.accessSecret jwtIssuer jwtAudience now tok with
  | .ok d => .ok d
  | .error .TokenExpiredError => .error .AccessTokenExpired
  | .error .JsonWebTokenError => .error .InvalidAccessToken

/-- `verifyRefreshToken`: verify against the refresh secret and map the
two `jsonwebtoken` failure classes to the wrapper's own errors. -/
def verifyRefreshToken (cfg : JwtConfig) (now : Nat) (tok : Jwt RefreshTokenPayload) :
    Except TokenError (Decoded RefreshTokenPayload) :=
  match jwtVerify cfg.refreshSecret jwtIssuer jwtAudience now tok with
  | .ok d => .ok d
  | .error .TokenExpiredError => .error .RefreshTokenExpired
  | .error .JsonWebTokenError => .error .InvalidRefreshToken

/-! ## User records and the repository (`IUserRepository`, Prisma-backed)

The user table is a `List User`; the repository queries of
`prisma-user.repository.ts` become list operations. Prisma-generated
unique lookups are `find?` over the list. -/

/-- A persisted `User` record (Prisma model): all spec "Credential
Record" fields, including the password hash. -/
structure User where
  id : String
  gymId : String
  name : String
  email : String
  passwordHash : Digest
  role : Role
  cpf : Option String
  phone : Option String
  birthDate : Option String
  avatarUrl : Option String
  isActive : Bool
  createdAt : Nat
  updatedAt : Nat
deriving DecidableEq, Repr

/-- `findById`: unique lookup by id. -/
def findById (repo : List User) (id : String) : Option User :=
  repo.find? (fun u => u.id == id)

/-- `findByEmailAndGymId`: unique lookup on the (email, gymId) pair. -/
def findByEmailAndGymId (repo : List User) (email gymId : String) : Option User :=
  repo.find? (fun u => u.email == email && u.gymId == gymId)

/-- `existsByEmailAndGymId`: `count > 0` over the (email, gymId) filter. -/
def existsByEmailAndGymId (repo : List User) (email gymId : String) : Bool :=
  repo.any (fun u => u.email == email && u.gymId == gymId)

/-- `existsByCpf`: `count > 0` over the cpf filter — global, not
tenant-scoped. -/
def existsByCpf (repo : List User) (cpf : String) : Bool :=
  repo.any (fun u => u.cpf == some cpf)

/-- `CreateUserData` as passed by `AuthService.register` to
`repository.create`. -/
structure CreateUserData where
  gymId : String
  name : String
  email : String
  passwordHash : Digest
  role : Role
  cpf : Option String
  phone : Option String
  birthDate : Option String
deriving DecidableEq, Repr

/-- `repository.create`: insert a fresh row. The database assigns the id
and the timestamps; they are explicit arguments here. `isActive`
defaults to true, `avatarUrl` to null. -/
def createUser (data : CreateUserData) (newId : String) (createdAt : Nat) : User :=
  { id := newId
    gymId := data.gymId
    name := data.name
    email := data.email
    passwordHash := data.passwordHash
    role := data.role
    cpf := data.cpf
    phone := data.phone
    birthDate := data.birthDate
    avatarUrl := none
    isActive := true
    createdAt := createdAt
    updatedAt := createdAt }

/-- `UpdateUserData`: partial update; absent fields are left untouched.
Field set inferred from the service call sites (`user.dto.ts` is not in
the sources). -/
structure UpdateUserData where
  name : Option String := none
  email : Option String := none
  role : Option Role := none
  cpf : Option String := none
  phone : Option String := none
  birthDate : Option String := none
  avatarUrl : Option String := none
deriving DecidableEq, Repr

/-- Apply a Prisma partial update to one row. -/
def applyUpdate (u : User) (d : UpdateUserData) : User :=
  { u with
    name := d.name.getD u.name
    email := d.email.getD u.email
    role := d.role.getD u.role
    cpf := match d.cpf with | some c => some c | none => u.cpf
    phone := match d.phone with | some p => some p | none => u.phone
    birthDate := match d.birthDate with | some b => some b | none => u.birthDate
    avatarUrl := match d.avatarUrl with | some a => some a | none => u.avatarUrl }

/-- `repository.update`: update the row with the given id. -/
def updateRepo (repo : List User) (id : String) (d : UpdateUserData) : List User :=
  repo.map (fun u => if u.id == id then applyUpdate u d else u)

/-- `repository.softDelete`: flip `isActive` to false. -/
def softDeleteRepo (repo : List User) (id : String) : List User :=
  repo.map (fun u => if u.id == id then { u with isActive := false } else u)

/-- `repository.reactivate`: flip `isActive` to true. -/
def reactivateRepo (repo : List User) (id : String) : List User :=
  repo.map (fun u => if u.id == id then { u with isActive := true } else u)

/-- `repository.delete`: hard-remove the row. -/
def deleteRepo (repo : List User) (id : String) : List User :=
  repo.filter (fun u => !(u.id == id))

/-! ## Auth service (`auth.service.ts`) -/

/-- `RegisterDTO`. -/
structure RegisterDTO where
  gymId : String
  name : String
  email : String
  password : String
  role : Option Role := none
  cpf : Option String := none
  phone : Option String := none
  birthDate : Option String := none
deriving DecidableEq, Repr

/-- `LoginDTO`. -/
structure LoginDTO where
  email : String
  password : String
  gymId : String
deriving DecidableEq, Repr

/-- The user view embedded in `AuthResponse`: id, name, email, role,
gymId — built field by field in the service, no password hash. -/
structure AuthUserView where
  id : String
  name : String
  email : String
  role : Role
  gymId : String
deriving DecidableEq, Repr

/-- `AuthResponse`: the safe user view plus both tokens. -/
structure AuthResponse where
  user : AuthUserView
  accessToken : SignedJwt JwtPayload
  refreshToken : SignedJwt RefreshTokenPayload
deriving DecidableEq, Repr

/-- `AuthService.register`. Gates in source order: duplicate
(email, gymId) → 409; truthy cpf already present anywhere → 409 (the
source guards with `if (data.cpf)`, so an empty-string cpf is falsy and
skips the gate); then hash, persist (role defaulting to MEMBER), sign
both tokens from the new record, and return the response plus the
updated table. `newId` and `createdAt` stand for the database-assigned
id and timestamp, `salt` for the fresh bcrypt salt, `now` for the
signing clock. -/
def register (cfg : JwtConfig) (repo : List User) (data : RegisterDTO)
    (newId : String) (createdAt salt now : Nat) :
    Except AppError (AuthResponse × List User) :=
  if existsByEmailAndGymId repo data.email data.gymId then
    .error ⟨"E-mail já cadastrado nesta academia", 409⟩
  else if (match data.cpf with
           | some c => !(c == "") && existsByCpf repo c
           | none => false) then
    .error ⟨"CPF já cadastrado", 409⟩
  else
    let passwordHash := hashPassword data.password salt
    let user := createUser
      { gymId := data.gymId
        name := data.name
        email := data.email
        passwordHash := passwordHash
        role := data.role.getD Role.MEMBER
        cpf := data.cpf
        phone := data.phone
        birthDate := data.birthDate } newId createdAt
    let accessToken := generateAccessToken cfg ⟨user.id, user.gymId, user.role⟩ now
    let refreshToken := generateRefreshToken cfg ⟨user.id⟩ now
    .ok ({ user := ⟨user.id, user.name, user.email, user.role, user.gymId⟩
           accessToken := accessToken
           refreshToken := refreshToken },
         repo ++ [user])

/-- `AuthService.login`. Lookup by (email, gymId) → generic 401 if
absent; inactive → 403 (before the password is checked); password
mismatch → the same generic 401; else fresh token pair. -/
def login (cfg : JwtConfig) (repo : List User) (data : LoginDTO) (now : Nat) :
    Except AppError AuthResponse :=
  match findByEmailAndGymId repo data.email data.gymId with
  | none => .error ⟨"Credenciais inválidas", 401⟩
  | some user =>
    if !user.isActive then
      .error ⟨"Usuário inativo", 403⟩
    else if !(comparePassword data.password user.passwordHash) then
      .error ⟨"Credenciais inválidas", 401⟩
    else
      .ok { user := ⟨user.id, user.name, user.email, user.role, user.gymId⟩
            accessToken := generateAccessToken cfg ⟨user.id, user.gymId, user.role⟩ now
            refreshToken := generateRefreshToken cfg ⟨user.id⟩ now }

/-- `AuthService.refreshAccessToken`. Any codec failure → 401; unknown
subject → 404; inactive → 403; else a single new access token signed
from the record as currently stored. -/
def refreshAccessToken (cfg : JwtConfig) (repo : List User)
    (refreshToken : Jwt RefreshTokenPayload) (now : Nat) :
    Except AppError (SignedJwt JwtPayload) :=
  match verifyRefreshToken cfg now refreshToken with
  | .error _ => .error ⟨"Refresh token inválido ou expirado", 401⟩
  | .ok decoded =>
    match findById repo decoded.payload.userId with
    | none => .error ⟨"Usuário não encontrado", 404⟩
    | some user =>
      if !user.isActive then
        .error ⟨"Usuário inativo", 403⟩
      else
        .ok (generateAccessToken cfg ⟨user.id, user.gymId, user.role⟩ now)

/-- `SafeUser = Omit<User, 'passwordHash'>`: every `User` field except
the password hash. -/
structure SafeUser where
  id : String
  gymId : String
  name : String
  email : String
  role : Role
  cpf : Option String
  phone : Option String
  birthDate : Option String
  avatarUrl : Option String
  isActive : Bool
  createdAt : Nat
  updatedAt : Nat
deriving DecidableEq, Repr

/-- `removeSensitiveData` (and the `{ passwordHash, ...rest }`
destructuring in `AuthService.getProfile`): drop the hash, keep the
rest. -/
def removeSensitiveData (u : User) : SafeUser :=
  { id := u.id
    gymId := u.gymId
    name := u.name
    email := u.email
    role := u.role
    cpf := u.cpf
    phone := u.phone
    birthDate := u.birthDate
    avatarUrl := u.avatarUrl
    isActive := u.isActive
    createdAt := u.createdAt
    updatedAt := u.updatedAt }

/-- `AuthService.getProfile`: lookup by id → 404 if absent, 403 if
inactive, else the record with the password hash stripped. -/
def getProfile (repo : List User) (userId : String) : Except AppError SafeUser :=
  match findById repo userId with
  | none => .error ⟨"Usuário não encontrado", 404⟩
  | some user =>
    if !user.isActive then
      .error ⟨"Usuário inativo", 403⟩
    else
      .ok (removeSensitiveData user)

/-! ## User service (`user.service.ts`) -/

/-- JS `a || d` for an optional number (0 is falsy). -/
def natOr (a : Option Nat) (d : Nat) : Nat :=
  match a with
  | some n => if n == 0 then d else n
  | none => d

/-- Substring test on character lists (JS / Prisma `contains`). -/
def listContainsSub : List Char → List Char → Bool
  | [], pat => pat.isEmpty
  | c :: rest, pat => pat.isPrefixOf (c :: rest) || listContainsSub rest pat

/-- Prisma `contains` with `mode: 'insensitive'`. -/
def strContainsInsensitive (hay pat : String) : Bool :=
  listContainsSub hay.toLower.data pat.toLower.data

/-- `ListUsersFiltersDTO`: the optional query filters of `listUsers`. -/
structure ListUsersFiltersDTO where
  role : Option Role := none
  isActive : Option Bool := none
  search : Option String := none
  page : Option Nat := none
  limit : Option Nat := none
deriving DecidableEq, Repr

/-- `FindManyUsersFilters`: the repository-level filters, with the
tenant forced in by the service. -/
structure FindManyUsersFilters where
  gymId : String
  role : Option Role := none
  isActive : Option Bool := none
  search : Option String := none
  page : Option Nat := none
  limit : Option Nat := none
deriving DecidableEq, Repr

/-- The Prisma `where` built by `findManyWithFilters`: tenant always;
role when given; isActive when not undefined; name-or-email contains
(case-insensitive) when search is truthy. -/
def matchesFilters (f : FindManyUsersFilters) (u : User) : Bool :=
  u.gymId == f.gymId
  && (match f.role with
      | some r => u.role == r
      | none => true)
  && (match f.isActive with
      | some b => u.isActive == b
      | none => true)
  && (match f.search with
      | some s =>
        if s == "" then true
        else strContainsInsensitive u.name s || strContainsInsensitive u.email s
      | none => true)

/-- Pagination metadata returned alongside the page. -/
structure PaginationMeta where
  total : Nat
  page : Nat
  limit : Nat
  totalPages : Nat
deriving DecidableEq, Repr

/-- A page of user rows plus its metadata. -/
structure PaginatedUsers where
  data : List User
  meta : PaginationMeta
deriving DecidableEq, Repr

/-- `findManyWithFilters`: page/limit default to 1/10 (JS `||`), rows
sorted by `createdAt` descending, `skip = (page-1)*limit`, `take =
limit`, `totalPages = ceil(total/limit)`. (The SQL select omits the
password hash column; rows are modelled as full records and the services
strip the hash before returning them.) -/
def findManyWithFilters (repo : List User) (f : FindManyUsersFilters) : PaginatedUsers :=
  let page := natOr f.page 1
  let limit := natOr f.limit 10
  let skip := (page - 1) * limit
  let matching := repo.filter (matchesFilters f)
  let sorted := matching.mergeSort (fun a b => b.createdAt ≤ a.createdAt)
  { data := (sorted.drop skip).take limit
    meta := { total := matching.length
              page := page
              limit := limit
              totalPages := (matching.length + limit - 1) / limit } }

/-- A page of password-free user views plus its metadata. -/
structure PaginatedSafeUsers where
  data : List SafeUser
  meta : PaginationMeta
deriving DecidableEq, Repr

/-- `UserService.listUsers`: MEMBER → 403; otherwise query with the
caller's tenant forced in, stripping the password hash from every row. -/
def listUsers (repo : List User) (filters : ListUsersFiltersDTO)
    (requestingUserId : String) (requestingUserRole : Role)
    (requestingUserGymId : String) : Except AppError PaginatedSafeUsers :=
  if requestingUserRole == Role.MEMBER then
    .error ⟨"Sem permissão para listar usuários", 403⟩
  else
    let _ := requestingUserId
    let result := findManyWithFilters repo
      { gymId := requestingUserGymId
        role := filters.role
        isActive := filters.isActive
        search := filters.search
        page := filters.page
        limit := filters.limit }
    .ok { data := result.data.map removeSensitiveData
          meta := result.meta }

/-- `UserService.getUserById`: 404 if absent; permitted for self, or for
a non-MEMBER of the same tenant; else 403. -/
def getUserById (repo : List User) (userId requestingUserId : String)
    (requestingUserRole : Role) (requestingUserGymId : String) :
    Except AppError SafeUser :=
  match findById repo userId with
  | none => .error ⟨"Usuário não encontrado", 404⟩
  | some user =>
    let isSelf := userId == requestingUserId
    let isSameGym := user.gymId == requestingUserGymId
    let hasPermission := isSelf || (isSameGym && !(requestingUserRole == Role.MEMBER))
    if !hasPermission then
      .error ⟨"Sem permissão para visualizar este usuário", 403⟩
    else
      .ok (removeSensitiveData user)

/-- `UpdateProfileDTO`: the self-service updatable fields. -/
structure UpdateProfileDTO where
  name : Option String := none
  phone : Option String := none
  birthDate : Option String := none
  avatarUrl : Option String := none
deriving DecidableEq, Repr

/-- `UserService.updateOwnProfile`: 404 if absent, 403 if inactive; else
update only the self-service fields and return the stripped row plus the
new table. -/
def updateOwnProfile (repo : List User) (userId : String) (data : UpdateProfileDTO) :
    Except AppError (SafeUser × List User) :=
  match findById repo userId with
  | none => .error ⟨"Usuário não encontrado", 404⟩
  | some user =>
    if !user.isActive then
      .error ⟨"Usuário inativo", 403⟩
    else
      let upd : UpdateUserData :=
        { name := data.name
          phone := data.phone
          birthDate := data.birthDate
          avatarUrl := data.avatarUrl }
      .ok (removeSensitiveData (applyUpdate user upd), updateRepo repo userId upd)

/-- `UpdateUserDTO`: the admin-updatable fields (field set inferred from
the service call sites; `user.dto.ts` is not in the sources). -/
structure UpdateUserDTO where
  name : Option String := none
  email : Option String := none
  role : Option Role := none
  cpf : Option String := none
  phone : Option String := none
  birthDate : Option String := none
  avatarUrl : Option String := none
deriving DecidableEq, Repr

/-- `UserService.updateUser`: ADMIN only; 404 if absent; same tenant
only; 409 on a changed email already taken in the tenant or a changed
cpf already taken anywhere; else apply the update. -/
def updateUser (repo : List User) (userId : String) (data : UpdateUserDTO)
    (requestingUserId : String) (requestingUserRole : Role)
    (requestingUserGymId : String) : Except AppError (SafeUser × List User) :=
  if !(requestingUserRole == Role.ADMIN) then
    .error ⟨"Sem permissão para editar usuários", 403⟩
  else
    let _ := requestingUserId
    match findById repo userId with
    | none => .error ⟨"Usuário não encontrado", 404⟩
    | some user =>
      if !(user.gymId == requestingUserGymId) then
        .error ⟨"Não é possível editar usuários de outra academia", 403⟩
      else if (match data.email with
               | some e => !(e == "") && !(e == user.email)
                           && existsByEmailAndGymId repo e user.gymId
               | none => false) then
        .error ⟨"E-mail já cadastrado", 409⟩
      else if (match data.cpf with
               | some c => !(c == "") && !(user.cpf == some c) && existsByCpf repo c
               | none => false) then
        .error ⟨"CPF já cadastrado", 409⟩
      else
        let upd : UpdateUserData :=
          { name := data.name
            email := data.email
            role := data.role
            cpf := data.cpf
            phone := data.phone
            birthDate := data.birthDate
            avatarUrl := data.avatarUrl }
        .ok (removeSensitiveData (applyUpdate user upd), updateRepo repo userId upd)

/-- `UserService.deactivateUser` (soft delete): ADMIN only; self-target
→ status 400; 404 if absent; same tenant only; already inactive → 400;
else flip `isActive` off. -/
def deactivateUser (repo : List User) (userId requestingUserId : String)
    (requestingUserRole : Role) (requestingUserGymId : String) :
    Except AppError (SafeUser × List User) :=
  if !(requestingUserRole == Role.ADMIN) then
    .error ⟨"Sem permissão para desativar usuários", 403⟩
  else if userId == requestingUserId then
    .error ⟨"Não é possível desativar o próprio usuário", 400⟩
  else
    match findById repo userId with
    | none => .error ⟨"Usuário não encontrado", 404⟩
    | some user =>
      if !(user.gymId == requestingUserGymId) then
        .error ⟨"Não é possível desativar usuários de outra academia", 403⟩
      else if !user.isActive then
        .error ⟨"Usuário já está inativo", 400⟩
      else
        .ok (removeSensitiveData { user with isActive := false },
             softDeleteRepo repo userId)

/-- `UserService.reactivateUser`: ADMIN only; 404 if absent; same tenant
only; already active → 400; else flip `isActive` on. -/
def reactivateUser (repo : List User) (userId requestingUserId : String)
    (requestingUserRole : Role) (requestingUserGymId : String) :
    Except AppError (SafeUser × List User) :=
  if !(requestingUserRole == Role.ADMIN) then
    .error ⟨"Sem permissão para reativar usuários", 403⟩
  else
    let _ := requestingUserId
    match findById repo userId with
    | none => .error ⟨"Usuário não encontrado", 404⟩
    | some user =>
      if !(user.gymId == requestingUserGymId) then
        .error ⟨"Não é possível reativar usuários de outra academia", 403⟩
      else if user.isActive then
        .error ⟨"Usuário já está ativo", 400⟩
      else
        .ok (removeSensitiveData { user with isActive := true },
             reactivateRepo repo userId)

/-- `UserService.deleteUser` (hard delete): ADMIN only; self-target →
status 400; 404 if absent; same tenant only; else remove the row. -/
def deleteUser (repo : List User) (userId requestingUserId : String)
    (requestingUserRole : Role) (requestingUserGymId : String) :
    Except AppError (List User) :=
  if !(requestingUserRole == Role.ADMIN) then
    .error ⟨"Sem permissão para deletar usuários", 403⟩
  else if userId == requestingUserId then
    .error ⟨"Não é possível deletar o próprio usuário", 400⟩
  else
    match findById repo userId with
    | none => .error ⟨"Usuário não encontrado", 404⟩
    | some user =>
      if !(user.gymId == requestingUserGymId) then
        .error ⟨"Não é possível deletar usuários de outra academia", 403⟩
      else
        .ok (deleteRepo repo userId)

/-! ## Middlewares (`authenticate.middleware.ts`,
`validate-gym.middleware.ts`) -/

/-- Outcome of a middleware: pass control on with a context, or hand an
`AppError` to the error handler. -/
inductive MwResult (κ : Type) where
  | next (ctx : κ)
  | fail (e : AppError)
deriving DecidableEq, Repr

/-- The fields `authenticate` attaches to the request. -/
structure RequestAuth where
  userId : String
  gymId : String
  userRole : Role
deriving DecidableEq, Repr

/-- JS `String.prototype.replace` with a string pattern: replace the
first occurrence only, leave the string unchanged if the pattern does
not occur. -/
def replaceOnceAux (pat repl : List Char) : List Char → List Char
  | [] => []
  | c :: rest =>
    if pat.isPrefixOf (c :: rest) then repl ++ (c :: rest).drop pat.length
    else c :: replaceOnceAux pat repl rest

/-- JS `s.replace(pat, repl)` for string patterns (first occurrence). -/
def jsReplaceOnce (s pat repl : String) : String :=
  ⟨replaceOnceAux pat.data repl.data s.data⟩

/-- `authenticate`: token from the `accessToken` cookie, else from the
`Authorization` header with the first `"Bearer "` stripped; cookie wins
when both are truthy. Missing token → 401; any verification failure →
one generic 401; success attaches {userId, gymId, role}. Verification of
the wire string is the structural codec behind an encoding, abstracted
here as the `verify` argument. -/
def authenticate (verify : String → Except TokenError (Decoded JwtPayload))
    (cookieAccessToken : Option String) (authorizationHeader : Option String) :
    MwResult RequestAuth :=
  let tokenFromCookie := cookieAccessToken
  let tokenFromHeader := authorizationHeader.map (fun h => jsReplaceOnce h "Bearer " "")
  match jsOr tokenFromCookie tokenFromHeader with
  | none => .fail ⟨"Token de autenticação não fornecido", 401⟩
  | some t =>
    if t == "" then .fail ⟨"Token de autenticação não fornecido", 401⟩
    else
      match verify t with
      | .error _ => .fail ⟨"Token inválido ou expirado", 401⟩
      | .ok decoded =>
        .next ⟨decoded.payload.userId, decoded.payload.gymId, decoded.payload.role⟩

/-- The request slice `validateGymAccess` reads: the tenant attached by
`authenticate` and the tenant id possibly supplied in path parameters,
query string, or body. -/
structure TenantRequest where
  gymId : Option String
  paramsGymId : Option String
  queryGymId : Option String
  bodyGymId : Option String
deriving DecidableEq, Repr

/-- The request-supplied tenant id: first truthy among path parameter,
query parameter, body field (JS `||` chain). -/
def requestGymIdOf (req : TenantRequest) : Option String :=
  jsOr req.paramsGymId (jsOr req.queryGymId req.bodyGymId)

/-- `validateGymAccess`: no tenant on the identity → 401; a supplied
tenant differing from the identity's → 403; else pass. -/
def validateGymAccess (req : TenantRequest) : MwResult Unit :=
  let userGymId := req.gymId
  let requestGymId := requestGymIdOf req
  if !(jsTruthy userGymId) then
    .fail ⟨"Dados de academia não encontrados na sessão", 401⟩
  else if jsTruthy requestGymId && !(requestGymId == userGymId) then
    .fail ⟨"Acesso negado a recursos de outra academia", 403⟩
  else
    .next ()

/-! ## Serialization views

The services return plain objects that the controllers serialize as
JSON. `toFields` renders the key/value pairs of each returned object;
the password-hash invariant is stated as absence of the
"passwordHash" key. -/

/-- The `Role` enum as its wire string. -/
def roleToString : Role → String
  | .ADMIN => "ADMIN"
  | .INSTRUCTOR => "INSTRUCTOR"
  | .MEMBER => "MEMBER"

/-- Render an optional string field (null when absent). -/
def optStr : Option String → String
  | some s => s
  | none => "null"

/-- The serialized fields of the auth-response user view. -/
def AuthUserView.toFields (v : AuthUserView) : List (String × String) :=
  [("id", v.id), ("name", v.name), ("email", v.email),
   ("role", roleToString v.role), ("gymId", v.gymId)]

/-- The serialized fields of a `SafeUser`. -/
def SafeUser.toFields (u : SafeUser) : List (String × String) :=
  [("id", u.id), ("gymId", u.gymId), ("name", u.name), ("email", u.email),
   ("role", roleToString u.role), ("cpf", optStr u.cpf),
   ("phone", optStr u.phone), ("birthDate", optStr u.birthDate),
   ("avatarUrl", optStr u.avatarUrl), ("isActive", toString u.isActive),
   ("createdAt", toString u.createdAt), ("updatedAt", toString u.updatedAt)]

/-- The serialized fields of a full stored `User` record — these do
include the password hash. -/
def User.toFields (u : User) : List (String × String) :=
  [("id", u.id), ("gymId", u.gymId), ("name", u.name), ("email", u.email),
   ("passwordHash", toString u.passwordHash.salt ++ u.passwordHash.derived),
   ("role", roleToString u.role), ("cpf", optStr u.cpf),
   ("phone", optStr u.phone), ("birthDate", optStr u.birthDate),
   ("avatarUrl", optStr u.avatarUrl), ("isActive", toString u.isActive),
   ("createdAt", toString u.createdAt), ("updatedAt", toString u.updatedAt)]

/-! ## Concrete instances used to exercise the theorems -/

/-- A concrete signing configuration. -/
def cfg0 : JwtConfig := ⟨1, 2, 900, 604800⟩

/-- An active admin of tenant g1. -/
def demoAlice : User :=
  ⟨"u1", "g1", "Alice", "alice@x.com", hashPassword "pw" 3, .ADMIN,
   some "111", none, none, none, true, 10, 10⟩

/-- An active member of tenant g1. -/
def demoBob : User :=
  ⟨"u2", "g1", "Bob", "bob@x.com", hashPassword "pw2" 4, .MEMBER,
   some "222", none, none, none, true, 5, 5⟩

/-- A deactivated member of tenant g1. -/
def demoCarol : User :=
  ⟨"u3", "g1", "Carol", "carol@x.com", hashPassword "pw3" 5, .MEMBER,
   none, none, none, none, false, 11, 11⟩

/-- A three-row user table. -/
def demoRepo : List User := [demoAlice, demoBob, demoCarol]

/-- Unwrap a success result, with an explicit fallback. -/
def okOr {α : Type} (x : Except AppError α) (d : α) : α :=
  match x with
  | .ok a => a
  | .error _ => d

/-- The HTTP status of a failed call (0 on success). -/
def errStatus {α : Type} (x : Except AppError α) : Nat :=
  match x with
  | .ok _ => 0
  | .error e => e.statusCode

/-- A fallback auth response for `okOr`. -/
def dAuth : AuthResponse :=
  ⟨⟨"x", "x", "x", .MEMBER, "x"⟩,
   generateAccessToken cfg0 ⟨"x", "x", .MEMBER⟩ 0,
   generateRefreshToken cfg0 ⟨"x"⟩ 0⟩

/-- A fallback safe user for `okOr`. -/
def dSafe : SafeUser := removeSensitiveData demoAlice

/-- A fallback page for `okOr`. -/
def dPage : PaginatedSafeUsers := ⟨[], ⟨0, 0, 0, 0⟩⟩

/-! ## Theorems -/

/-- **C1.** For every request passing through `validateGymAccess`: no
tenant on the authenticated identity → fail 401; otherwise, with the
request-supplied tenant taken as the first truthy of path parameter,
query parameter and body field (in that precedence order): none supplied
→ pass; supplied and equal to the identity's tenant → pass; supplied and
different → fail 403. -/
theorem validateGymAccess_tenant_isolation (req : TenantRequest) :
    (jsTruthy req.gymId = false →
      validateGymAccess req = .fail ⟨"Dados de academia não encontrados na sessão", 401⟩)
    ∧ (jsTruthy req.gymId = true →
        (jsTruthy (requestGymIdOf req) = false → validateGymAccess req = .next ())
        ∧ (requestGymIdOf req = req.gymId → validateGymAccess req = .next ())
        ∧ (jsTruthy (requestGymIdOf req) = true → requestGymIdOf req ≠ req.gymId →
            validateGymAccess req = .fail ⟨"Acesso negado a recursos de outra academia", 403⟩))
    ∧ (jsTruthy req.paramsGymId = true → requestGymIdOf req = req.paramsGymId)
    ∧ (jsTruthy req.paramsGymId = false → jsTruthy req.queryGymId = true →
        requestGymIdOf req = req.queryGymId)
    ∧ (jsTruthy req.paramsGymId = false → jsTruthy req.queryGymId = false →
        requestGymIdOf req = req.bodyGymId) := by
  refine ⟨?_, fun hu => ⟨?_, ?_, ?_⟩, ?_, ?_, ?_⟩
  · intro h
    simp [validateGymAccess, h]
  · intro hr
    simp_all [validateGymAccess]
  · intro hr
    simp_all [validateGymAccess]
  · intro hr hne
    have : (requestGymIdOf req == req.gymId) = false := by
      simpa using hne
    simp_all [validateGymAccess]
  · intro hp
    simp [requestGymIdOf, jsOr, hp]
  · intro hp hq
    simp [requestGymIdOf, jsOr, hp, hq]
  · intro hp hq
    simp [requestGymIdOf, jsOr, hp, hq]

/-- **C1 witness**: each branch of the guard exercised on concrete
requests. -/
theorem validateGymAccess_tenant_isolation_witness :
    validateGymAccess ⟨none, some "g2", none, none⟩ =
      .fail ⟨"Dados de academia não encontrados na sessão", 401⟩
    ∧ validateGymAccess ⟨some "g1", none, none, none⟩ = .next ()
    ∧ validateGymAccess ⟨some "g1", some "g1", none, none⟩ = .next ()
    ∧ validateGymAccess ⟨some "g1", some "g2", none, none⟩ =
      .fail ⟨"Acesso negado a recursos de outra academia", 403⟩
    ∧ requestGymIdOf ⟨some "g1", some "p", some "q", some "b"⟩ = some "p"
    ∧ requestGymIdOf ⟨some "g1", none, some "q", some "b"⟩ = some "q"
    ∧ requestGymIdOf ⟨some "g1", none, none, some "b"⟩ = some "b" :=
  ⟨(validateGymAccess_tenant_isolation _).1 (by decide),
   ((validateGymAccess_tenant_isolation _).2.1 (by decide)).1 (by decide),
   ((validateGymAccess_tenant_isolation _).2.1 (by decide)).2.1 (by decide),
   ((validateGymAccess_tenant_isolation _).2.1 (by decide)).2.2 (by decide) (by decide),
   (validateGymAccess_tenant_isolation _).2.2.1 (by decide),
   (validateGymAccess_tenant_isolation _).2.2.2.1 (by decide) (by decide),
   (validateGymAccess_tenant_isolation _).2.2.2.2 (by decide) (by decide)⟩

/-- **C2.** `AuthService.login`: unknown (email, tenant) → 401; known,
active, wrong password → 401 with the character-for-character identical
message; known but inactive → 403 whatever the password is (the inactive
check precedes password verification). -/
theorem login_error_taxonomy (cfg : JwtConfig) (repo : List User) (data : LoginDTO)
    (now : Nat) :
    (findByEmailAndGymId repo data.email data.gymId = none →
      login cfg repo data now = .error ⟨"Credenciais inválidas", 401⟩)
    ∧ (∀ u, findByEmailAndGymId repo data.email data.gymId = some u →
        (u.isActive = true → comparePassword data.password u.passwordHash = false →
          login cfg repo data now = .error ⟨"Credenciais inválidas", 401⟩)
        ∧ (u.isActive = false →
          login cfg repo data now = .error ⟨"Usuário inativo", 403⟩)) := by
  constructor
  · intro h
    simp [login, h]
  · intro u hu
    constructor
    · intro hact hpw
      simp [login, hu, hact, hpw]
    · intro hact
      simp [login, hu, hact]

/-- **C2 witness**: the three login failure branches on a concrete
store, showing the unknown-email and wrong-password messages coincide. -/
theorem login_error_taxonomy_witness :
    login cfg0 demoRepo ⟨"nobody@x.com", "pw", "g1"⟩ 100 =
      .error ⟨"Credenciais inválidas", 401⟩
    ∧ login cfg0 demoRepo ⟨"alice@x.com", "wrong", "g1"⟩ 100 =
      .error ⟨"Credenciais inválidas", 401⟩
    ∧ login cfg0 demoRepo ⟨"carol@x.com", "pw3", "g1"⟩ 100 =
      .error ⟨"Usuário inativo", 403⟩ :=
  ⟨(login_error_taxonomy cfg0 demoRepo ⟨"nobody@x.com", "pw", "g1"⟩ 100).1 (by decide),
   ((login_error_taxonomy cfg0 demoRepo ⟨"alice@x.com", "wrong", "g1"⟩ 100).2
      demoAlice (by decide)).1 (by decide) (by decide),
   ((login_error_taxonomy cfg0 demoRepo ⟨"carol@x.com", "pw3", "g1"⟩ 100).2
      demoCarol (by decide)).2 (by decide)⟩

/-- **C3.** `AuthService.register` runs its gates in order: duplicate
(email, tenant) → 409 (no write: the table is only returned, appended,
on success); else a provided (truthy, i.e. non-empty — the source guards
with `if (data.cpf)`) cpf that exists anywhere → 409, while an
empty-string cpf skips that gate just as an absent one does; else the
password is hashed, exactly one record is appended whose role defaults
to MEMBER when none was supplied, both tokens are signed from the new
record's identity, and the returned profile view serializes without a
"passwordHash" key. -/
theorem register_gates_in_order (cfg : JwtConfig) (repo : List User)
    (data : RegisterDTO) (newId : String) (createdAt salt now : Nat) :
    (existsByEmailAndGymId repo data.email data.gymId = true →
      register cfg repo data newId createdAt salt now =
        .error ⟨"E-mail já cadastrado nesta academia", 409⟩)
    ∧ (existsByEmailAndGymId repo data.email data.gymId = false →
       ∀ c, data.cpf = some c → c ≠ "" → existsByCpf repo c = true →
        register cfg repo data newId createdAt salt now =
          .error ⟨"CPF já cadastrado", 409⟩)
    ∧ (existsByEmailAndGymId repo data.email data.gymId = false →
       (match data.cpf with
        | some c => !(c == "") && existsByCpf repo c
        | none => false) = false →
       ∃ resp repo2, register cfg repo data newId createdAt salt now = .ok (resp, repo2)
         ∧ repo2 = repo ++ [createUser
             { gymId := data.gymId, name := data.name, email := data.email
               passwordHash := hashPassword data.password salt
               role := data.role.getD Role.MEMBER
               cpf := data.cpf, phone := data.phone, birthDate := data.birthDate }
             newId createdAt]
         ∧ (data.role = none → ∀ u, repo2 = repo ++ [u] → u.role = Role.MEMBER)
         ∧ resp.accessToken =
             generateAccessToken cfg ⟨newId, data.gymId, data.role.getD Role.MEMBER⟩ now
         ∧ resp.refreshToken = generateRefreshToken cfg ⟨newId⟩ now
         ∧ resp.user = ⟨newId, data.name, data.email, data.role.getD Role.MEMBER, data.gymId⟩
         ∧ "passwordHash" ∉ (resp.user.toFields.map Prod.fst))
    ∧ (existsByEmailAndGymId repo data.email data.gymId = false →
       data.cpf = some "" →
       ∃ resp repo2, register cfg repo data newId createdAt salt now = .ok (resp, repo2)) := by
  have hsucc : existsByEmailAndGymId repo data.email data.gymId = false →
      (match data.cpf with
       | some c => !(c == "") && existsByCpf repo c
       | none => false) = false →
      ∃ resp repo2, register cfg repo data newId createdAt salt now = .ok (resp, repo2)
        ∧ repo2 = repo ++ [createUser
            { gymId := data.gymId, name := data.name, email := data.email
              passwordHash := hashPassword data.password salt
              role := data.role.getD Role.MEMBER
              cpf := data.cpf, phone := data.phone, birthDate := data.birthDate }
            newId createdAt]
        ∧ (data.role = none → ∀ u, repo2 = repo ++ [u] → u.role = Role.MEMBER)
        ∧ resp.accessToken =
            generateAccessToken cfg ⟨newId, data.gymId, data.role.getD Role.MEMBER⟩ now
        ∧ resp.refreshToken = generateRefreshToken cfg ⟨newId⟩ now
        ∧ resp.user = ⟨newId, data.name, data.email, data.role.getD Role.MEMBER, data.gymId⟩
        ∧ "passwordHash" ∉ (resp.user.toFields.map Prod.fst) := by
    intro h hcpf
    refine ⟨⟨⟨newId, data.name, data.email, data.role.getD Role.MEMBER, data.gymId⟩,
             generateAccessToken cfg ⟨newId, data.gymId, data.role.getD Role.MEMBER⟩ now,
             generateRefreshToken cfg ⟨newId⟩ now⟩,
            repo ++ [createUser
              { gymId := data.gymId, name := data.name, email := data.email
                passwordHash := hashPassword data.password salt
                role := data.role.getD Role.MEMBER
                cpf := data.cpf, phone := data.phone, birthDate := data.birthDate }
              newId createdAt],
            ?_, rfl, ?_, rfl, rfl, rfl, ?_⟩
    · simp [register, h, hcpf, createUser]
    · intro hrole u hu
      have := List.append_cancel_left hu
      simp at this
      subst this
      simp [createUser, hrole]
    · simp [AuthUserView.toFields]
  refine ⟨?_, ?_, hsucc, ?_⟩
  · intro h
    simp [register, h]
  · intro h c hc hne hcpf
    have hbeq : (c == "") = false := by simp [hne]
    simp [register, h, hc, hbeq, hcpf]
  · intro h hc
    obtain ⟨resp, repo2, hok, -⟩ := hsucc h (by simp [hc])
    exact ⟨resp, repo2, hok⟩

/-- **C3 witness**: the two conflict gates, a successful registration,
and an empty-string cpf skipping the cpf gate even though a ""-cpf row
is in the store. -/
theorem register_gates_in_order_witness :
    register cfg0 demoRepo ⟨"g1", "Al", "alice@x.com", "x", none, none, none, none⟩
      "u9" 20 6 100 = .error ⟨"E-mail já cadastrado nesta academia", 409⟩
    ∧ register cfg0 demoRepo ⟨"g1", "Dan", "dan@x.com", "x", none, some "222", none, none⟩
      "u9" 20 6 100 = .error ⟨"CPF já cadastrado", 409⟩
    ∧ (∃ resp repo2,
        register cfg0 demoRepo ⟨"g1", "Dan", "dan@x.com", "x", none, none, none, none⟩
          "u9" 20 6 100 = .ok (resp, repo2)
        ∧ repo2 = demoRepo ++ [createUser
            { gymId := "g1", name := "Dan", email := "dan@x.com"
              passwordHash := hashPassword "x" 6, role := Role.MEMBER
              cpf := none, phone := none, birthDate := none } "u9" 20])
    ∧ (∃ resp repo2,
        register cfg0
          [demoAlice,
           ⟨"u5", "g1", "Eve", "eve@x.com", hashPassword "p" 9, .MEMBER,
            some "", none, none, none, true, 1, 1⟩]
          ⟨"g1", "Dan", "dan@x.com", "x", none, some "", none, none⟩
          "u9" 20 6 100 = .ok (resp, repo2)) := by
  refine ⟨?_, ?_, ?_, ?_⟩
  · exact (register_gates_in_order cfg0 demoRepo
      ⟨"g1", "Al", "alice@x.com", "x", none, none, none, none⟩ "u9" 20 6 100).1 (by decide)
  · exact (register_gates_in_order cfg0 demoRepo
      ⟨"g1", "Dan", "dan@x.com", "x", none, some "222", none, none⟩ "u9" 20 6 100).2.1
      (by decide) "222" rfl (by decide) (by decide)
  · obtain ⟨resp, repo2, hok, hrepo, -⟩ := (register_gates_in_order cfg0 demoRepo
      ⟨"g1", "Dan", "dan@x.com", "x", none, none, none, none⟩ "u9" 20 6 100).2.2.1
      (by decide) (by decide)
    exact ⟨resp, repo2, hok, hrepo⟩
  · exact (register_gates_in_order cfg0
      [demoAlice,
       ⟨"u5", "g1", "Eve", "eve@x.com", hashPassword "p" 9, .MEMBER,
        some "", none, none, none, true, 1, 1⟩]
      ⟨"g1", "Dan", "dan@x.com", "x", none, some "", none, none⟩
      "u9" 20 6 100).2.2.2 (by decide) rfl

/-- **C4.** `AuthService.refreshAccessToken`: any refresh-token
verification failure → 401; verified but the subject's record is gone →
404; record inactive → 403; otherwise exactly one new access token is
returned (no refresh token), signed from the record as currently stored
— subject, tenant and role come from the record, not from the token's
claims. -/
theorem refreshAccessToken_behaviour (cfg : JwtConfig) (repo : List User)
    (tok : Jwt RefreshTokenPayload) (now : Nat) :
    (∀ e, verifyRefreshToken cfg now tok = .error e →
      refreshAccessToken cfg repo tok now =
        .error ⟨"Refresh token inválido ou expirado", 401⟩)
    ∧ (∀ d, verifyRefreshToken cfg now tok = .ok d →
        (findById repo d.payload.userId = none →
          refreshAccessToken cfg repo tok now = .error ⟨"Usuário não encontrado", 404⟩)
        ∧ (∀ u, findById repo d.payload.userId = some u →
            (u.isActive = false →
              refreshAccessToken cfg repo tok now = .error ⟨"Usuário inativo", 403⟩)
            ∧ (u.isActive = true →
              refreshAccessToken cfg repo tok now =
                .ok (generateAccessToken cfg ⟨u.id, u.gymId, u.role⟩ now)))) := by
  constructor
  · intro e he
    simp [refreshAccessToken, he]
  · intro d hd
    constructor
    · intro hnone
      simp [refreshAccessToken, hd, hnone]
    · intro u hu
      constructor
      · intro hact
        simp [refreshAccessToken, hd, hu, hact]
      · intro hact
        simp [refreshAccessToken, hd, hu, hact]

/-- **C4 witness**: the four branches on the concrete store, at a clock
inside the refresh window. The active-user branch shows the minted
claims follow the stored record. -/
theorem refreshAccessToken_behaviour_witness :
    refreshAccessToken cfg0 demoRepo .malformed 100 =
      .error ⟨"Refresh token inválido ou expirado", 401⟩
    ∧ refreshAccessToken cfg0 demoRepo
        (.token (generateRefreshToken cfg0 ⟨"ghost"⟩ 50)) 100 =
      .error ⟨"Usuário não encontrado", 404⟩
    ∧ refreshAccessToken cfg0 demoRepo
        (.token (generateRefreshToken cfg0 ⟨"u3"⟩ 50)) 100 =
      .error ⟨"Usuário inativo", 403⟩
    ∧ refreshAccessToken cfg0 demoRepo
        (.token (generateRefreshToken cfg0 ⟨"u1"⟩ 50)) 100 =
      .ok (generateAccessToken cfg0 ⟨"u1", "g1", Role.ADMIN⟩ 100) :=
  ⟨(refreshAccessToken_behaviour cfg0 demoRepo .malformed 100).1
     .InvalidRefreshToken (by decide),
   ((refreshAccessToken_behaviour cfg0 demoRepo
       (.token (generateRefreshToken cfg0 ⟨"ghost"⟩ 50)) 100).2
     ⟨⟨"ghost"⟩, 50, 50 + 604800⟩ (by decide)).1 (by decide),
   (((refreshAccessToken_behaviour cfg0 demoRepo
        (.token (generateRefreshToken cfg0 ⟨"u3"⟩ 50)) 100).2
      ⟨⟨"u3"⟩, 50, 50 + 604800⟩ (by decide)).2 demoCarol (by decide)).1 (by decide),
   (((refreshAccessToken_behaviour cfg0 demoRepo
        (.token (generateRefreshToken cfg0 ⟨"u1"⟩ 50)) 100).2
      ⟨⟨"u1"⟩, 50, 50 + 604800⟩ (by decide)).2 demoAlice (by decide)).2 (by decide)⟩

/-- **C5.** Token codec round trip: a token issued from any claims
verifies to those claims before expiry under the unmodified access
secret; at or after the expiry instant verification fails TokenExpired;
a token whose signature does not match its content (tampering), a token
signed over a different issuer or audience, and a structurally malformed
token all fail TokenInvalid. -/
theorem verifyAccessToken_roundtrip (cfg : JwtConfig) (p : JwtPayload)
    (issued now : Nat) :
    (now < issued + cfg.accessExpiresIn →
      verifyAccessToken cfg now (.token (generateAccessToken cfg p issued)) =
        .ok ⟨p, issued, issued + cfg.accessExpiresIn⟩)
    ∧ (issued + cfg.accessExpiresIn ≤ now →
      verifyAccessToken cfg now (.token (generateAccessToken cfg p issued)) =
        .error .AccessTokenExpired)
    ∧ (∀ t : SignedJwt JwtPayload,
        t.sig ≠ (cfg.accessSecret, t.payload, t.iss, t.aud, t.iat, t.exp) →
        verifyAccessToken cfg now (.token t) = .error .InvalidAccessToken)
    ∧ (∀ p' : JwtPayload, p' ≠ p →
        verifyAccessToken cfg now
          (.token { generateAccessToken cfg p issued with payload := p' }) =
          .error .InvalidAccessToken)
    ∧ (∀ iss aud, iss ≠ jwtIssuer ∨ aud ≠ jwtAudience →
        now < issued + cfg.accessExpiresIn →
        verifyAccessToken cfg now
          (.token (jwtSign cfg.accessSecret p iss aud issued cfg.accessExpiresIn)) =
          .error .InvalidAccessToken)
    ∧ verifyAccessToken cfg now .malformed = .error .InvalidAccessToken := by
  refine ⟨?_, ?_, ?_, ?_, ?_, ?_⟩
  · intro h
    have hexp : ¬ (issued + cfg.accessExpiresIn ≤ now) := by omega
    simp [verifyAccessToken, jwtVerify, generateAccessToken, jwtSign, hexp]
  · intro h
    simp [verifyAccessToken, jwtVerify, generateAccessToken, jwtSign, h]
  · intro t ht
    simp [verifyAccessToken, jwtVerify, ht]
  · intro p' hp'
    have hne : ¬ (((cfg.accessSecret, p, jwtIssuer, jwtAudience, issued,
        issued + cfg.accessExpiresIn) :
          Nat × JwtPayload × String × String × Nat × Nat) =
        (cfg.accessSecret, p', jwtIssuer, jwtAudience, issued,
        issued + cfg.accessExpiresIn)) := by
      intro hh
      simp at hh
      exact hp' hh.symm
    simp [verifyAccessToken, jwtVerify, generateAccessToken, jwtSign, hne]
  · intro iss aud hor h
    have hexp : ¬ (issued + cfg.accessExpiresIn ≤ now) := by omega
    cases hor with
    | inl hi =>
      by_cases haud : aud = jwtAudience
      · simp [verifyAccessToken, jwtVerify, jwtSign, hexp, haud, hi]
      · simp [verifyAccessToken, jwtVerify, jwtSign, hexp, haud]
    | inr ha =>
      simp [verifyAccessToken, jwtVerify, jwtSign, hexp, ha]
  · simp [verifyAccessToken, jwtVerify]

/-- **C5 witness**: the codec branches at concrete claims, secrets and
clock values. -/
theorem verifyAccessToken_roundtrip_witness :
    verifyAccessToken cfg0 1500 (.token (generateAccessToken cfg0 ⟨"u1", "g1", .MEMBER⟩ 1000)) =
      .ok ⟨⟨"u1", "g1", .MEMBER⟩, 1000, 1900⟩
    ∧ verifyAccessToken cfg0 1900 (.token (generateAccessToken cfg0 ⟨"u1", "g1", .MEMBER⟩ 1000)) =
      .error .AccessTokenExpired
    ∧ verifyAccessToken cfg0 1500
        (.token ⟨⟨"u1", "g1", .MEMBER⟩, jwtIssuer, jwtAudience, 1000, 1900,
          (999, ⟨"u1", "g1", .MEMBER⟩, jwtIssuer, jwtAudience, 1000, 1900)⟩) =
      .error .InvalidAccessToken
    ∧ verifyAccessToken cfg0 1500
        (.token { generateAccessToken cfg0 ⟨"u1", "g1", .MEMBER⟩ 1000 with
                  payload := ⟨"u1", "g1", .ADMIN⟩ }) =
      .error .InvalidAccessToken
    ∧ verifyAccessToken cfg0 1500
        (.token (jwtSign cfg0.accessSecret ⟨"u1", "g1", .MEMBER⟩ "evil-issuer"
          jwtAudience 1000 cfg0.accessExpiresIn)) =
      .error .InvalidAccessToken
    ∧ verifyAccessToken cfg0 1500 .malformed = .error .InvalidAccessToken :=
  ⟨by
    have := (verifyAccessToken_roundtrip cfg0 ⟨"u1", "g1", .MEMBER⟩ 1000 1500).1
      (by decide)
    simpa using this,
   (verifyAccessToken_roundtrip cfg0 ⟨"u1", "g1", .MEMBER⟩ 1000 1900).2.1 (by decide),
   (verifyAccessToken_roundtrip cfg0 ⟨"u1", "g1", .MEMBER⟩ 1000 1500).2.2.1
     ⟨⟨"u1", "g1", .MEMBER⟩, jwtIssuer, jwtAudience, 1000, 1900,
      (999, ⟨"u1", "g1", .MEMBER⟩, jwtIssuer, jwtAudience, 1000, 1900)⟩ (by decide),
   (verifyAccessToken_roundtrip cfg0 ⟨"u1", "g1", .MEMBER⟩ 1000 1500).2.2.2.1
     ⟨"u1", "g1", .ADMIN⟩ (by decide),
   (verifyAccessToken_roundtrip cfg0 ⟨"u1", "g1", .MEMBER⟩ 1000 1500).2.2.2.2.1
     "evil-issuer" jwtAudience (Or.inl (by decide)) (by decide),
   (verifyAccessToken_roundtrip cfg0 ⟨"u1", "g1", .MEMBER⟩ 1000 1500).2.2.2.2.2⟩

/-- **C6.** `authenticate`: the token comes from the `accessToken`
cookie, falling back to the `Authorization` header (with the first
"Bearer " removed), the cookie winning when both are present; no token →
401; any verification failure → the single generic 401 message,
independent of the failure kind; success attaches exactly
{userId, gymId, role} from the verified claims. -/
theorem authenticate_extraction_and_outcomes
    (verify : String → Except TokenError (Decoded JwtPayload))
    (cookie header : Option String) :
    (jsTruthy cookie = true →
      authenticate verify cookie header = authenticate verify cookie none)
    ∧ (jsTruthy (jsOr cookie (header.map (fun h => jsReplaceOnce h "Bearer " ""))) = false →
        authenticate verify cookie header =
          .fail ⟨"Token de autenticação não fornecido", 401⟩)
    ∧ (∀ t, jsOr cookie (header.map (fun h => jsReplaceOnce h "Bearer " "")) = some t →
        t ≠ "" →
        (∀ e, verify t = .error e →
          authenticate verify cookie header = .fail ⟨"Token inválido ou expirado", 401⟩)
        ∧ (∀ d, verify t = .ok d →
          authenticate verify cookie header =
            .next ⟨d.payload.userId, d.payload.gymId, d.payload.role⟩)) := by
  refine ⟨?_, ?_, ?_⟩
  · intro hc
    simp [authenticate, jsOr, hc]
  · intro hf
    cases hx : jsOr cookie (header.map (fun h => jsReplaceOnce h "Bearer " "")) with
    | none => simp [authenticate, hx]
    | some t =>
      rw [hx] at hf
      have ht : t = "" := by simpa [jsTruthy] using hf
      subst ht
      simp [authenticate, hx]
  · intro t hx hne
    have hbeq : (t == "") = false := by simp [hne]
    constructor
    · intro e he
      simp [authenticate, hx, hbeq, he]
    · intro d hd
      simp [authenticate, hx, hbeq, hd]

/-- **C6 witness**: cookie precedence, the no-token branch, the generic
failure message for two distinct codec error kinds, and the attached
context on success, on a concrete verifier. -/
theorem authenticate_extraction_and_outcomes_witness :
    authenticate (fun s => if s == "good" then .ok ⟨⟨"u1", "g1", .MEMBER⟩, 0, 9⟩
        else if s == "late" then .error .AccessTokenExpired
        else .error .InvalidAccessToken)
      (some "good") (some "Bearer late") =
      authenticate (fun s => if s == "good" then .ok ⟨⟨"u1", "g1", .MEMBER⟩, 0, 9⟩
        else if s == "late" then .error .AccessTokenExpired
        else .error .InvalidAccessToken) (some "good") none
    ∧ authenticate (fun s => if s == "good" then .ok ⟨⟨"u1", "g1", .MEMBER⟩, 0, 9⟩
        else if s == "late" then .error .AccessTokenExpired
        else .error .InvalidAccessToken) none none =
      .fail ⟨"Token de autenticação não fornecido", 401⟩
    ∧ authenticate (fun s => if s == "good" then .ok ⟨⟨"u1", "g1", .MEMBER⟩, 0, 9⟩
        else if s == "late" then .error .AccessTokenExpired
        else .error .InvalidAccessToken) none (some "Bearer late") =
      .fail ⟨"Token inválido ou expirado", 401⟩
    ∧ authenticate (fun s => if s == "good" then .ok ⟨⟨"u1", "g1", .MEMBER⟩, 0, 9⟩
        else if s == "late" then .error .AccessTokenExpired
        else .error .InvalidAccessToken) none (some "Bearer bad") =
      .fail ⟨"Token inválido ou expirado", 401⟩
    ∧ authenticate (fun s => if s == "good" then .ok ⟨⟨"u1", "g1", .MEMBER⟩, 0, 9⟩
        else if s == "late" then .error .AccessTokenExpired
        else .error .InvalidAccessToken) none (some "Bearer good") =
      .next ⟨"u1", "g1", .MEMBER⟩ :=
  ⟨(authenticate_extraction_and_outcomes _ (some "good") (some "Bearer late")).1
     (by decide),
   (authenticate_extraction_and_outcomes _ none none).2.1 (by decide),
   ((authenticate_extraction_and_outcomes _ none (some "Bearer late")).2.2 "late"
     (by decide) (by decide)).1 .AccessTokenExpired (by decide),
   ((authenticate_extraction_and_outcomes _ none (some "Bearer bad")).2.2 "bad"
     (by decide) (by decide)).1 .InvalidAccessToken (by decide),
   ((authenticate_extraction_and_outcomes _ none (some "Bearer good")).2.2 "good"
     (by decide) (by decide)).2 ⟨⟨"u1", "g1", .MEMBER⟩, 0, 9⟩ (by decide)⟩

/-- **C7.** Password hasher: verification succeeds on the matching
plaintext; two calls on the same plaintext (drawing distinct fresh
salts) give distinct digests; verification of a different plaintext's
digest fails. -/
theorem password_hash_verify (p p2 : String) (s s1 s2 : Nat) :
    comparePassword p (hashPassword p s) = true
    ∧ (s1 ≠ s2 → hashPassword p s1 ≠ hashPassword p s2)
    ∧ (p ≠ p2 → comparePassword p (hashPassword p2 s) = false) := by
  refine ⟨?_, ?_, ?_⟩
  · simp [comparePassword, hashPassword]
  · intro hs
    simp [hashPassword, hs]
  · intro hp
    simp [comparePassword, hashPassword, hp]

/-- **C7 witness**: the hasher properties at concrete plaintexts and
salts. -/
theorem password_hash_verify_witness :
    comparePassword "alpha" (hashPassword "alpha" 0) = true
    ∧ hashPassword "alpha" 0 ≠ hashPassword "alpha" 1
    ∧ comparePassword "alpha" (hashPassword "beta" 0) = false :=
  ⟨(password_hash_verify "alpha" "beta" 0 0 1).1,
   (password_hash_verify "alpha" "beta" 0 0 1).2.1 (by decide),
   (password_hash_verify "alpha" "beta" 0 0 1).2.2 (by decide)⟩

/-- **C8.** No success response of the auth or user service serializes a
"passwordHash" key: register, login, getProfile, listUsers, getUserById,
updateOwnProfile, updateUser, deactivateUser and reactivateUser all
return views whose serialized field names exclude it — while the stored
record itself does serialize one, so the stripping is doing real work. -/
theorem services_never_serialize_password_hash
    (cfg : JwtConfig) (repo : List User) (now createdAt salt : Nat)
    (newId uid rid gid : String) (role : Role)
    (rdto : RegisterDTO) (ldto : LoginDTO) (filters : ListUsersFiltersDTO)
    (pdto : UpdateProfileDTO) (udto : UpdateUserDTO) :
    (∀ r, register cfg repo rdto newId createdAt salt now = .ok r →
      "passwordHash" ∉ (r.1.user.toFields.map Prod.fst))
    ∧ (∀ r, login cfg repo ldto now = .ok r →
      "passwordHash" ∉ (r.user.toFields.map Prod.fst))
    ∧ (∀ r, getProfile repo uid = .ok r →
      "passwordHash" ∉ (r.toFields.map Prod.fst))
    ∧ (∀ r, listUsers repo filters rid role gid = .ok r →
      "passwordHash" ∉ (r.data.flatMap (fun v => v.toFields.map Prod.fst)))
    ∧ (∀ r, getUserById repo uid rid role gid = .ok r →
      "passwordHash" ∉ (r.toFields.map Prod.fst))
    ∧ (∀ r, updateOwnProfile repo uid pdto = .ok r →
      "passwordHash" ∉ (r.1.toFields.map Prod.fst))
    ∧ (∀ r, updateUser repo uid udto rid role gid = .ok r →
      "passwordHash" ∉ (r.1.toFields.map Prod.fst))
    ∧ (∀ r, deactivateUser repo uid rid role gid = .ok r →
      "passwordHash" ∉ (r.1.toFields.map Prod.fst))
    ∧ (∀ r, reactivateUser repo uid rid role gid = .ok r →
      "passwordHash" ∉ (r.1.toFields.map Prod.fst))
    ∧ (∀ u : User, "passwordHash" ∈ ((User.toFields u).map Prod.fst)) := by
  refine ⟨?_, ?_, ?_, ?_, ?_, ?_, ?_, ?_, ?_, ?_⟩
  · intro r _
    simp [AuthUserView.toFields]
  · intro r _
    simp [AuthUserView.toFields]
  · intro r _
    simp [SafeUser.toFields]
  · intro r _
    simp only [List.mem_flatMap]
    rintro ⟨v, -, hmem⟩
    simp [SafeUser.toFields] at hmem
  · intro r _
    simp [SafeUser.toFields]
  · intro r _
    simp [SafeUser.toFields]
  · intro r _
    simp [SafeUser.toFields]
  · intro r _
    simp [SafeUser.toFields]
  · intro r _
    simp [SafeUser.toFields]
  · intro u
    simp [User.toFields]

/-- **C8 witness**: each of the nine operations run successfully on the
concrete store, plus the stored record's own serialization showing the
key it strips. -/
theorem services_never_serialize_password_hash_witness :
    "passwordHash" ∉
      (((okOr (register cfg0 demoRepo ⟨"g1", "Dan", "dan@x.com", "x", none, none, none, none⟩
          "u9" 20 6 100) (dAuth, [])).1.user.toFields).map Prod.fst)
    ∧ "passwordHash" ∉
      (((okOr (login cfg0 demoRepo ⟨"alice@x.com", "pw", "g1"⟩ 100) dAuth).user.toFields).map
        Prod.fst)
    ∧ "passwordHash" ∉
      (((okOr (getProfile demoRepo "u1") dSafe).toFields).map Prod.fst)
    ∧ "passwordHash" ∉
      ((okOr (listUsers demoRepo ⟨none, none, none, none, none⟩ "u1" .ADMIN "g1")
          dPage).data.flatMap (fun v => v.toFields.map Prod.fst))
    ∧ "passwordHash" ∉
      (((okOr (getUserById demoRepo "u2" "u1" .ADMIN "g1") dSafe).toFields).map Prod.fst)
    ∧ "passwordHash" ∉
      (((okOr (updateOwnProfile demoRepo "u1" ⟨some "Al", none, none, none⟩)
          (dSafe, [])).1.toFields).map Prod.fst)
    ∧ "passwordHash" ∉
      (((okOr (updateUser demoRepo "u2" ⟨some "Bobby", none, none, none, none, none, none⟩
          "u1" .ADMIN "g1") (dSafe, [])).1.toFields).map Prod.fst)
    ∧ "passwordHash" ∉
      (((okOr (deactivateUser demoRepo "u2" "u1" .ADMIN "g1") (dSafe, [])).1.toFields).map
        Prod.fst)
    ∧ "passwordHash" ∉
      (((okOr (reactivateUser demoRepo "u3" "u1" .ADMIN "g1") (dSafe, [])).1.toFields).map
        Prod.fst)
    ∧ "passwordHash" ∈ ((User.toFields demoAlice).map Prod.fst) :=
  ⟨(services_never_serialize_password_hash cfg0 demoRepo 100 20 6 "u9" "u1" "u1" "g1"
      .ADMIN ⟨"g1", "Dan", "dan@x.com", "x", none, none, none, none⟩
      ⟨"alice@x.com", "pw", "g1"⟩ ⟨none, none, none, none, none⟩
      ⟨some "Al", none, none, none⟩
      ⟨some "Bobby", none, none, none, none, none, none⟩).1 _ rfl,
   (services_never_serialize_password_hash cfg0 demoRepo 100 20 6 "u9" "u1" "u1" "g1"
      .ADMIN ⟨"g1", "Dan", "dan@x.com", "x", none, none, none, none⟩
      ⟨"alice@x.com", "pw", "g1"⟩ ⟨none, none, none, none, none⟩
      ⟨some "Al", none, none, none⟩
      ⟨some "Bobby", none, none, none, none, none, none⟩).2.1 _ rfl,
   (services_never_serialize_password_hash cfg0 demoRepo 100 20 6 "u9" "u1" "u1" "g1"
      .ADMIN ⟨"g1", "Dan", "dan@x.com", "x", none, none, none, none⟩
      ⟨"alice@x.com", "pw", "g1"⟩ ⟨none, none, none, none, none⟩
      ⟨some "Al", none, none, none⟩
      ⟨some "Bobby", none, none, none, none, none, none⟩).2.2.1 _ rfl,
   (services_never_serialize_password_hash cfg0 demoRepo 100 20 6 "u9" "u1" "u1" "g1"
      .ADMIN ⟨"g1", "Dan", "dan@x.com", "x", none, none, none, none⟩
      ⟨"alice@x.com", "pw", "g1"⟩ ⟨none, none, none, none, none⟩
      ⟨some "Al", none, none, none⟩
      ⟨some "Bobby", none, none, none, none, none, none⟩).2.2.2.1 _ rfl,
   (services_never_serialize_password_hash cfg0 demoRepo 100 20 6 "u9" "u2" "u1" "g1"
      .ADMIN ⟨"g1", "Dan", "dan@x.com", "x", none, none, none, none⟩
      ⟨"alice@x.com", "pw", "g1"⟩ ⟨none, none, none, none, none⟩
      ⟨some "Al", none, none, none⟩
      ⟨some "Bobby", none, none, none, none, none, none⟩).2.2.2.2.1 _ rfl,
   (services_never_serialize_password_hash cfg0 demoRepo 100 20 6 "u9" "u1" "u1" "g1"
      .ADMIN ⟨"g1", "Dan", "dan@x.com", "x", none, none, none, none⟩
      ⟨"alice@x.com", "pw", "g1"⟩ ⟨none, none, none, none, none⟩
      ⟨some "Al", none, none, none⟩
      ⟨some "Bobby", none, none, none, none, none, none⟩).2.2.2.2.2.1 _ rfl,
   (services_never_serialize_password_hash cfg0 demoRepo 100 20 6 "u9" "u2" "u1" "g1"
      .ADMIN ⟨"g1", "Dan", "dan@x.com", "x", none, none, none, none⟩
      ⟨"alice@x.com", "pw", "g1"⟩ ⟨none, none, none, none, none⟩
      ⟨some "Al", none, none, none⟩
      ⟨some "Bobby", none, none, none, none, none, none⟩).2.2.2.2.2.2.1 _ rfl,
   (services_never_serialize_password_hash cfg0 demoRepo 100 20 6 "u9" "u2" "u1" "g1"
      .ADMIN ⟨"g1", "Dan", "dan@x.com", "x", none, none, none, none⟩
      ⟨"alice@x.com", "pw", "g1"⟩ ⟨none, none, none, none, none⟩
      ⟨some "Al", none, none, none⟩
      ⟨some "Bobby", none, none, none, none, none, none⟩).2.2.2.2.2.2.2.1 _ rfl,
   (services_never_serialize_password_hash cfg0 demoRepo 100 20 6 "u9" "u3" "u1" "g1"
      .ADMIN ⟨"g1", "Dan", "dan@x.com", "x", none, none, none, none⟩
      ⟨"alice@x.com", "pw", "g1"⟩ ⟨none, none, none, none, none⟩
      ⟨some "Al", none, none, none⟩
      ⟨some "Bobby", none, none, none, none, none, none⟩).2.2.2.2.2.2.2.2.1 _ rfl,
   (services_never_serialize_password_hash cfg0 demoRepo 100 20 6 "u9" "u1" "u1" "g1"
      .ADMIN ⟨"g1", "Dan", "dan@x.com", "x", none, none, none, none⟩
      ⟨"alice@x.com", "pw", "g1"⟩ ⟨none, none, none, none, none⟩
      ⟨some "Al", none, none, none⟩
      ⟨some "Bobby", none, none, none, none, none, none⟩).2.2.2.2.2.2.2.2.2 demoAlice⟩

/-- **C9 counterexample.** An ADMIN self-targeting `deactivateUser` or
`deleteUser` on the concrete store fails with HTTP status 400 — not 403
as the claim states. -/
theorem deactivate_delete_self_status_counterexample :
    deactivateUser demoRepo "u1" "u1" .ADMIN "g1" =
      .error ⟨"Não é possível desativar o próprio usuário", 400⟩
    ∧ deleteUser demoRepo "u1" "u1" .ADMIN "g1" =
      .error ⟨"Não é possível deletar o próprio usuário", 400⟩
    ∧ errStatus (deactivateUser demoRepo "u1" "u1" .ADMIN "g1") = 400
    ∧ errStatus (deleteUser demoRepo "u1" "u1" .ADMIN "g1") = 400
    ∧ (400 : Nat) ≠ 403 := by
  refine ⟨rfl, rfl, rfl, rfl, by decide⟩

/-- **C9 (amended).** For every `deactivateUser` or `deleteUser` call
where the requesting ADMIN's own user ID equals the target user ID, the
operation fails with HTTP status 400 (Bad Request); the failure is
raised before any lookup or write, so the target record is unchanged. -/
theorem deactivate_delete_self_bad_request (repo : List User) (uid gym : String) :
    deactivateUser repo uid uid .ADMIN gym =
      .error ⟨"Não é possível desativar o próprio usuário", 400⟩
    ∧ deleteUser repo uid uid .ADMIN gym =
      .error ⟨"Não é possível deletar o próprio usuário", 400⟩ := by
  constructor
  · simp [deactivateUser]
  · simp [deleteUser]

/-- If the pattern occurs nowhere in the string, JS first-occurrence
replacement leaves the string unchanged. -/
theorem replaceOnceAux_of_not_contains (pat repl : List Char) :
    ∀ s : List Char, listContainsSub s pat = false → replaceOnceAux pat repl s = s := by
  intro s
  induction s with
  | nil => intro _; rfl
  | cons c rest ih =>
    intro h
    simp only [listContainsSub, Bool.or_eq_false_iff] at h
    obtain ⟨h1, h2⟩ := h
    simp [replaceOnceAux, h1, ih h2]

/-- JS first-occurrence replacement on a string that starts with the
pattern replaces exactly that leading occurrence. -/
theorem replaceOnceAux_append (pat repl t : List Char) (h : pat ≠ []) :
    replaceOnceAux pat repl (pat ++ t) = repl ++ t := by
  cases pat with
  | nil => exact absurd rfl h
  | cons p ps =>
    have hpre : (p :: ps).isPrefixOf ((p :: ps) ++ t) = true := by
      rw [List.isPrefixOf_iff_prefix]
      exact List.prefix_append _ _
    rw [List.cons_append] at hpre ⊢
    simp [replaceOnceAux, hpre, List.drop_left]

/-- **C10.** The authenticate stage does not require the "Bearer "
scheme: the header value has only its first "Bearer " occurrence
removed, so a raw token passes through unchanged, a "Bearer "-prefixed
token is stripped to the raw token, a doubled scheme loses only the
first copy, and a raw-token header is accepted exactly as if the
"Bearer " scheme had been used. -/
theorem authenticate_accepts_raw_header_token
    (verify : String → Except TokenError (Decoded JwtPayload)) (t : String)
    (h : listContainsSub t.data "Bearer ".data = false) :
    jsReplaceOnce t "Bearer " "" = t
    ∧ jsReplaceOnce ("Bearer " ++ t) "Bearer " "" = t
    ∧ jsReplaceOnce ("Bearer Bearer " ++ t) "Bearer " "" = "Bearer " ++ t
    ∧ authenticate verify none (some t) =
        authenticate verify none (some ("Bearer " ++ t)) := by
  have h1 : jsReplaceOnce t "Bearer " "" = t := by
    unfold jsReplaceOnce
    rw [replaceOnceAux_of_not_contains _ _ _ h]
  have hstrip : ∀ u : String, jsReplaceOnce ("Bearer " ++ u) "Bearer " "" = u := by
    intro u
    unfold jsReplaceOnce
    rw [String.data_append, replaceOnceAux_append _ _ _ (by decide)]
    simp
  refine ⟨h1, hstrip t, ?_, ?_⟩
  · have hsplit : ("Bearer Bearer " ++ t : String) = "Bearer " ++ ("Bearer " ++ t) := by
      simp [← String.append_assoc]
    rw [hsplit, hstrip ("Bearer " ++ t)]
  · simp [authenticate, jsOr, jsTruthy, h1, hstrip t]

/-- **C10 witness**: a dotted raw token is accepted exactly as its
"Bearer "-prefixed form, under a concrete verifier. -/
theorem authenticate_accepts_raw_header_token_witness :
    jsReplaceOnce "tok.en" "Bearer " "" = "tok.en"
    ∧ jsReplaceOnce ("Bearer " ++ "tok.en") "Bearer " "" = "tok.en"
    ∧ jsReplaceOnce ("Bearer Bearer " ++ "tok.en") "Bearer " "" = "Bearer " ++ "tok.en"
    ∧ authenticate (fun _ => .error .InvalidAccessToken) none (some "tok.en") =
        authenticate (fun _ => .error .InvalidAccessToken) none
          (some ("Bearer " ++ "tok.en")) :=
  authenticate_accepts_raw_header_token (fun _ => .error .InvalidAccessToken)
    "tok.en" (by decide)

end GymDev
